import Mathlib

/-!
Shallow embedding of the persistence layer of the MyMediaHub application
(`database.py`, `setup_database.py`): the per-user media record store
(`DatabaseModel` over one SQLite table `Media`) and the user registry
(`UserManager` over the table `Users`, provisioning one media store file
per username via `setup_media_database`).

Modelling conventions:
* A SQLite `Media` table is a list of `MediaRow` plus the AUTOINCREMENT
  counter (`DB.nextId`); `date_added` is passed in explicitly in place of
  the engine's `CURRENT_TIMESTAMP` default.
* The Python `Media` dataclass is `Media`; since Python permits `None` in
  any field regardless of annotations and the SQLite columns other than
  `id`, `title`, `media_type` are nullable, its fields are `Option`-typed.
  SQLite `REAL` is modelled by `Rat`.
* Operations that can deterministically raise (the constraint violations
  re-raised as `Exception` by the Python code) return `Except String`;
  nondeterministic I/O faults are outside the model except where a claim
  needs them (`create_user` takes a `provisionOk` oracle for the success
  of its storage provisioning step).
* SQLite `LIKE` (ASCII-case-insensitive, with `%`/`_` wildcards, as built
  by `search_by_title`'s unescaped `"%" + title + "%"` pattern) is
  `likeMatch`; `ORDER BY ... ASC/DESC` on text is insertion sort over the
  codepoint order, which coincides with SQLite's binary collation.
-/

/-- The `Media` dataclass of `database.py`. Field defaults mirror the
dataclass defaults (`id=None`, `rating=None`, `status="To Read"`, empty
strings elsewhere). -/
structure Media where
  id : Option Nat := none
  title : Option String := some ""
  media_type : Option String := some ""
  genre : Option String := some ""
  release_date : Option String := some ""
  director : Option String := some ""
  description : Option String := some ""
  rating : Option Rat := none
  status : Option String := some "To Read"
  image_path : Option String := some ""
  date_added : Option String := some ""
deriving DecidableEq, Repr

/-- One stored row of the SQLite `Media` table created by
`setup_media_database`: `id` is the integer primary key, `title` and
`media_type` are `NOT NULL`, `date_added` is filled by the engine's
`DEFAULT CURRENT_TIMESTAMP` on insert, everything else is nullable. -/
structure MediaRow where
  id : Nat
  title : String
  media_type : String
  genre : Option String
  release_date : Option String
  director : Option String
  description : Option String
  rating : Option Rat
  status : Option String
  image_path : Option String
  date_added : String
deriving DecidableEq, Repr

/-- State of one user's media database file: the stored rows in insertion
order plus the AUTOINCREMENT counter for `id`. -/
structure DB where
  rows : List MediaRow
  nextId : Nat
deriving DecidableEq, Repr

/-- A freshly created media database (AUTOINCREMENT keys start at 1). -/
def emptyDB : DB := { rows := [], nextId := 1 }

/-- Well-formedness of a reachable store state: every stored id is below
the AUTOINCREMENT counter (SQLite never reassigns a live rowid). -/
def DB.WF (db : DB) : Prop := ∀ r ∈ db.rows, r.id < db.nextId

/-- Case-folded comparison used by SQLite `LIKE`: ASCII letters compare
case-insensitively (`Char.toLower` lowers exactly `A`–`Z`). -/
def likeCharEq (c d : Char) : Bool := c.toLower == d.toLower

/-- SQLite `LIKE` pattern matching: `%` matches any sequence of
characters (the rest of the pattern must match some suffix of the
string), `_` matches one character, any other pattern character matches
ASCII-case-insensitively. -/
def likeMatch (p : List Char) (s : List Char) : Bool :=
  match p with
  | [] => s.isEmpty
  | c :: p' =>
    if c = '%' then
      (List.tails s).any (fun t => likeMatch p' t)
    else if c = '_' then
      match s with
      | [] => false
      | _ :: s' => likeMatch p' s'
    else
      match s with
      | [] => false
      | d :: s' => likeCharEq c d && likeMatch p' s'

/-- `strStartsWith q s` holds when `q` is an initial segment of `s`. -/
def strStartsWith : List Char → List Char → Bool
  | [], _ => true
  | _ :: _, [] => false
  | c :: q, d :: s => c == d && strStartsWith q s

/-- `strContains q s` holds when `q` occurs as a contiguous substring of
`s`. -/
def strContains (q : List Char) : List Char → Bool
  | [] => strStartsWith q []
  | d :: s => strStartsWith q (d :: s) || strContains q s

/-- Case-insensitive (ASCII) substring containment of strings: the
specification's reading of what `search_by_title` matches. -/
def containsCI (q s : String) : Bool :=
  strContains (q.data.map Char.toLower) (s.data.map Char.toLower)

/-- Round a rational to the nearest integer, ties to the even integer,
as Python's `round` does. -/
def roundHalfEven (x : Rat) : Int :=
  let n := Rat.floor x
  let frac := x - (n : Rat)
  if frac < 1/2 then n
  else if (1 : Rat)/2 < frac then n + 1
  else if n % 2 = 0 then n else n + 1

/-- Round a rational to one decimal place (Python `round(x, 1)`). -/
def roundTo1 (x : Rat) : Rat := ((roundHalfEven (x * 10) : Int) : Rat) / 10

/-- SQL equality of two nullable values: `NULL = x` is never true. -/
def sqlEq {α : Type} [BEq α] : Option α → Option α → Bool
  | some a, some b => a == b
  | _, _ => false

/-- Output order of `get_all_records` (`ORDER BY date_added DESC`). -/
def byDateDesc (a b : MediaRow) : Prop := b.date_added ≤ a.date_added

instance : DecidableRel byDateDesc :=
  fun a b => inferInstanceAs (Decidable (b.date_added ≤ a.date_added))

/-- Output order of `search_by_title` and the filters
(`ORDER BY title ASC`). -/
def byTitleAsc (a b : MediaRow) : Prop := a.title ≤ b.title

instance : DecidableRel byTitleAsc :=
  fun a b => inferInstanceAs (Decidable (a.title ≤ b.title))

namespace DatabaseModel

/-- `DatabaseModel._row_to_media` on a non-null row: converts a stored
row back into a `Media` value. -/
def row_to_media (r : MediaRow) : Media :=
  { id := some r.id
  , title := some r.title
  , media_type := some r.media_type
  , genre := r.genre
  , release_date := r.release_date
  , director := r.director
  , description := r.description
  , rating := r.rating
  , status := r.status
  , image_path := r.image_path
  , date_added := some r.date_added }

/-- `DatabaseModel.get_all_records`: `SELECT * FROM Media ORDER BY
date_added DESC`. -/
def get_all_records (db : DB) : List Media :=
  (List.insertionSort byDateDesc db.rows).map row_to_media

/-- `DatabaseModel.get_record`: `SELECT * FROM Media WHERE id = ?`,
`fetchone`, returning `None` when no row matches. -/
def get_record (db : DB) (media_id : Nat) : Option Media :=
  (db.rows.find? (fun r => r.id == media_id)).map row_to_media

/-- `DatabaseModel.search_by_title`: `SELECT * FROM Media WHERE title
LIKE ? ORDER BY title ASC` with the unescaped pattern `"%" + title + "%"`. -/
def search_by_title (db : DB) (title : String) : List Media :=
  (List.insertionSort byTitleAsc
      (db.rows.filter
        (fun r => likeMatch ('%' :: (title.data ++ ['%'])) r.title.data))).map
    row_to_media

/-- `DatabaseModel.create_record`: `INSERT INTO Media (title, media_type,
genre, release_date, director, description, rating, status, image_path)
VALUES (...)`, then `commit` and return `lastrowid`. The engine assigns
`id` (AUTOINCREMENT) and `date_added` (`DEFAULT CURRENT_TIMESTAMP`,
passed here as `now`); a `NULL` `title` or `media_type` violates the
schema's `NOT NULL` constraints, which the Python code re-raises as an
`Exception`. -/
def create_record (db : DB) (media : Media) (now : String) :
    Except String (DB × Nat) :=
  match media.title, media.media_type with
  | some t, some mt =>
    let row : MediaRow :=
      { id := db.nextId
      , title := t
      , media_type := mt
      , genre := media.genre
      , release_date := media.release_date
      , director := media.director
      , description := media.description
      , rating := media.rating
      , status := media.status
      , image_path := media.image_path
      , date_added := now }
    Except.ok ({ rows := db.rows ++ [row], nextId := db.nextId + 1 }, db.nextId)
  | _, _ => Except.error "Error creating record: NOT NULL constraint failed"

/-- `DatabaseModel.update_record`: `UPDATE Media SET ... WHERE id=?`,
then `commit` and return `rowcount > 0`. A missing (or `NULL`) id
matches no row and succeeds with `False`; a matched row with `NULL`
`title` or `media_type` violates `NOT NULL` and raises. `id` and
`date_added` are not in the `SET` list and are preserved. -/
def update_record (db : DB) (media : Media) : Except String (DB × Bool) :=
  match media.id with
  | none => Except.ok (db, false)
  | some i =>
    if db.rows.any (fun r => r.id == i) then
      match media.title, media.media_type with
      | some t, some mt =>
        Except.ok
          ({ db with
              rows := db.rows.map (fun r =>
                if r.id == i then
                  { r with
                      title := t
                    , media_type := mt
                    , genre := media.genre
                    , release_date := media.release_date
                    , director := media.director
                    , description := media.description
                    , rating := media.rating
                    , status := media.status
                    , image_path := media.image_path }
                else r) },
            true)
      | _, _ => Except.error "Error updating record: NOT NULL constraint failed"
    else Except.ok (db, false)

/-- Result record of `DatabaseModel.get_statistics` (the `stats` dict). -/
structure Stats where
  total_items : Nat
  type_breakdown : List (String × Nat)
  status_breakdown : List (Option String × Nat)
  average_rating : Rat
deriving DecidableEq, Repr

/-- `DatabaseModel.get_statistics`: `COUNT(*)`; per-distinct-value counts
for `media_type` and `status` (the latter compared by SQL `=`, so a
`NULL` status group counts 0); `AVG(rating)` over non-null ratings,
rounded to one decimal when the average is truthy (non-`None` and
non-zero), else the literal `0`. -/
def get_statistics (db : DB) : Stats :=
  let types := (db.rows.map (fun r => r.media_type)).dedup
  let statuses := (db.rows.map (fun r => r.status)).dedup
  let ratings := db.rows.filterMap (fun r => r.rating)
  { total_items := db.rows.length
  , type_breakdown :=
      types.map (fun t => (t, (db.rows.filter (fun r => r.media_type == t)).length))
  , status_breakdown :=
      statuses.map (fun st => (st, (db.rows.filter (fun r => sqlEq r.status st)).length))
  , average_rating :=
      if ratings.length = 0 then 0
      else
        let avg := ratings.sum / (ratings.length : Rat)
        if avg = 0 then 0 else roundTo1 avg }

end DatabaseModel

/-- File name of a user's media store, as in `setup_media_database`:
`f"media_library_\x7busername\x7d.db"`. -/
def dbFileName (username : String) : String :=
  "media_library_" ++ username ++ ".db"

/-- Combined persistent state: the `Users` table (usernames in insertion
order; `username` is `UNIQUE NOT NULL`) and the per-user media database
files, keyed by file name. -/
structure Sys where
  users : List String
  stores : List (String × DB)
deriving Repr

/-- Look up a media database file by name. -/
def findStore (sys : Sys) (name : String) : Option DB :=
  (sys.stores.find? (fun p => p.1 == name)).map (fun p => p.2)

/-- `setup_database.setup_media_database`: connects to
`media_library_<username>.db` (creating the file when absent) and runs
`CREATE TABLE IF NOT EXISTS Media (...)`: idempotent, an existing store
is left untouched. -/
def setup_media_database (sys : Sys) (username : String) : Sys :=
  if sys.stores.any (fun p => p.1 == dbFileName username) then sys
  else { sys with stores := sys.stores ++ [(dbFileName username, emptyDB)] }

/-- Output order of `get_all_users` (`ORDER BY username ASC`). -/
def userAsc (a b : String) : Prop := a ≤ b

instance : DecidableRel userAsc :=
  fun a b => inferInstanceAs (Decidable (a ≤ b))

namespace UserManager

/-- `UserManager.get_all_users`: `SELECT username FROM Users ORDER BY
username ASC`. -/
def get_all_users (sys : Sys) : List String :=
  List.insertionSort userAsc sys.users

/-- `UserManager.create_user`: `INSERT INTO Users (username) VALUES (?)`
then `commit`, then `setup_media_database(username)`. A duplicate
username raises `IntegrityError` at the insert (nothing is written,
provisioning is skipped) and is caught to return `False`. On a fresh
username the insert is committed first; `provisionOk` says whether the
subsequent provisioning step succeeds — when it fails with a storage
error the Python code raises, leaving the committed insert in place. -/
def create_user (sys : Sys) (username : String) (provisionOk : Bool) :
    Sys × Except String Bool :=
  if sys.users.contains username then (sys, Except.ok false)
  else
    let sys1 : Sys := { sys with users := sys.users ++ [username] }
    if provisionOk then (setup_media_database sys1 username, Except.ok true)
    else (sys1, Except.error "Error creating user: provisioning failed")

end UserManager

/-- Specification-side reading of `search_by_title` (spec: "case-insensitive
substring match on title, ordered by title ascending"): keep exactly the
rows whose title contains the query as a case-insensitive substring. -/
def search_by_title_spec (db : DB) (title : String) : List Media :=
  (List.insertionSort byTitleAsc
      (db.rows.filter (fun r => containsCI title r.title))).map
    DatabaseModel.row_to_media

/-- Specification-side reading of the `average_rating` statistic: zero
when no item has a non-null rating, else the arithmetic mean of the
non-null ratings rounded to one decimal place. -/
def spec_average_rating (db : DB) : Rat :=
  let ratings := db.rows.filterMap (fun r => r.rating)
  if ratings.length = 0 then 0
  else roundTo1 (ratings.sum / (ratings.length : Rat))

/-- Concrete stored row titled "Alpha", used as fixture. -/
def alphaRow : MediaRow :=
  { id := 1
  , title := "Alpha"
  , media_type := "Book"
  , genre := some ""
  , release_date := some ""
  , director := some ""
  , description := some ""
  , rating := none
  , status := some "To Read"
  , image_path := some ""
  , date_added := "2024-01-01 10:00:00" }

/-- Concrete stored row titled "beta", used as fixture. -/
def betaRow : MediaRow :=
  { id := 2
  , title := "beta"
  , media_type := "Film"
  , genre := some ""
  , release_date := some ""
  , director := some ""
  , description := some ""
  , rating := some 9
  , status := some "To Read"
  , image_path := some ""
  , date_added := "2024-01-02 10:00:00" }

/-- Fixture store holding only the "Alpha" row. -/
def exDB : DB := { rows := [alphaRow], nextId := 2 }

/-- Fixture store holding the "Alpha" and "beta" rows. -/
def exDB2 : DB := { rows := [alphaRow, betaRow], nextId := 3 }

/-- Fixture media input with all required fields present. -/
def exMedia : Media :=
  { id := none
  , title := some "Dune"
  , media_type := some "Book"
  , genre := some "Sci-Fi"
  , release_date := some "October/1/1965"
  , director := some "Frank Herbert"
  , description := some "Desert planet"
  , rating := some (17/2)
  , status := some "Completed"
  , image_path := some "covers/dune.png"
  , date_added := some "" }

/-- Fixture media input that no presentation-layer validation would
accept: empty required title, out-of-range rating, unknown status. -/
def junkMedia : Media :=
  { id := none
  , title := some ""
  , media_type := some "Book"
  , genre := none
  , release_date := none
  , director := none
  , description := none
  , rating := some 99
  , status := some "Bogus"
  , image_path := none
  , date_added := none }

/-- Fixture system state with no users and no media stores. -/
def emptySys : Sys := { users := [], stores := [] }

theorem length_insertionSort_eq {α : Type} (r : α → α → Prop) [DecidableRel r]
    (l : List α) : (List.insertionSort r l).length = l.length :=
  (List.perm_insertionSort r l).length_eq

/-- C1: for every well-formed store and every media input whose required
fields `title` and `media_type` are present, `create_record` succeeds and
`get_record` on the returned new identifier yields an item equal to the
input in every field except the store-assigned `id` and `date_added`. -/
theorem create_then_get_roundtrip (db : DB) (m : Media) (now : String)
    (hwf : db.WF) (ht : m.title.isSome) (hmt : m.media_type.isSome) :
    ∃ db2 newId,
      DatabaseModel.create_record db m now = Except.ok (db2, newId) ∧
      ∃ m2, DatabaseModel.get_record db2 newId = some m2 ∧
        m2.title = m.title ∧ m2.media_type = m.media_type ∧
        m2.genre = m.genre ∧ m2.release_date = m.release_date ∧
        m2.director = m.director ∧ m2.description = m.description ∧
        m2.rating = m.rating ∧ m2.status = m.status ∧
        m2.image_path = m.image_path ∧
        m2.id = some newId ∧ m2.date_added = some now := by
  obtain ⟨t, ht⟩ := Option.isSome_iff_exists.mp ht
  obtain ⟨mt, hmt⟩ := Option.isSome_iff_exists.mp hmt
  have hcr : DatabaseModel.create_record db m now = Except.ok
      ({ rows := db.rows ++
          [{ id := db.nextId, title := t, media_type := mt,
             genre := m.genre, release_date := m.release_date,
             director := m.director, description := m.description,
             rating := m.rating, status := m.status,
             image_path := m.image_path, date_added := now }],
         nextId := db.nextId + 1 }, db.nextId) := by
    simp [DatabaseModel.create_record, ht, hmt]
  have hfind : db.rows.find? (fun r => r.id == db.nextId) = none := by
    rw [List.find?_eq_none]
    intro r hr
    simpa using Nat.ne_of_lt (hwf r hr)
  refine ⟨_, _, hcr,
    DatabaseModel.row_to_media
      ⟨db.nextId, t, mt, m.genre, m.release_date, m.director, m.description,
        m.rating, m.status, m.image_path, now⟩,
    ?_, ?_, ?_, ?_, ?_, ?_, ?_, ?_, ?_, ?_, ?_, ?_⟩ <;>
    simp [DatabaseModel.get_record, DatabaseModel.row_to_media,
      List.find?_append, hfind, ht, hmt]

/-- C1 witness: a concrete run of the round trip on the empty store. -/
theorem create_then_get_roundtrip_witness :
    ∃ db2 newId,
      DatabaseModel.create_record emptyDB exMedia "2024-03-05 09:00:00"
        = Except.ok (db2, newId) ∧
      ∃ m2, DatabaseModel.get_record db2 newId = some m2 ∧
        m2.title = exMedia.title ∧ m2.media_type = exMedia.media_type ∧
        m2.genre = exMedia.genre ∧ m2.release_date = exMedia.release_date ∧
        m2.director = exMedia.director ∧ m2.description = exMedia.description ∧
        m2.rating = exMedia.rating ∧ m2.status = exMedia.status ∧
        m2.image_path = exMedia.image_path ∧
        m2.id = some newId ∧ m2.date_added = some "2024-03-05 09:00:00" :=
  create_then_get_roundtrip emptyDB exMedia "2024-03-05 09:00:00"
    (by intro r hr; simp [emptyDB] at hr) (by decide) (by decide)

/-- C5 counterexample: `create_record` with a `NULL` title is rejected by
the schema's `NOT NULL` constraint (the Python code re-raises the
resulting `sqlite3.IntegrityError` as an `Exception`), so the store does
not persist every input it is given. -/
theorem create_record_null_title_rejected :
    DatabaseModel.create_record emptyDB
        { title := none, media_type := some "Book" } "2024-03-05 09:00:00"
      = Except.error "Error creating record: NOT NULL constraint failed" := rfl

/-- C5 amended: `create_record` performs no field-level validation of its
own — any input whose `title` and `media_type` are non-null is persisted
verbatim (empty titles, out-of-range ratings and unknown statuses
included) and the call succeeds; only the schema's `NOT NULL`
constraints on `title`/`media_type` can reject an input. -/
theorem create_record_persists_verbatim (db : DB) (m : Media) (now : String)
    (t mt : String) (ht : m.title = some t) (hmt : m.media_type = some mt) :
    DatabaseModel.create_record db m now = Except.ok
      ({ rows := db.rows ++
          [{ id := db.nextId, title := t, media_type := mt,
             genre := m.genre, release_date := m.release_date,
             director := m.director, description := m.description,
             rating := m.rating, status := m.status,
             image_path := m.image_path, date_added := now }],
         nextId := db.nextId + 1 }, db.nextId) := by
  simp [DatabaseModel.create_record, ht, hmt]

/-- C5 witness: the store accepts and persists verbatim an input no
validating layer would admit (empty required title, rating 99 outside
[0, 10], unknown status). -/
theorem create_record_persists_verbatim_witness :
    DatabaseModel.create_record exDB2 junkMedia "2024-03-05 09:00:00"
      = Except.ok
        ({ rows := exDB2.rows ++
            [{ id := exDB2.nextId, title := "", media_type := "Book",
               genre := junkMedia.genre, release_date := junkMedia.release_date,
               director := junkMedia.director, description := junkMedia.description,
               rating := junkMedia.rating, status := junkMedia.status,
               image_path := junkMedia.image_path,
               date_added := "2024-03-05 09:00:00" }],
           nextId := exDB2.nextId + 1 }, exDB2.nextId) :=
  create_record_persists_verbatim exDB2 junkMedia "2024-03-05 09:00:00"
    "" "Book" rfl rfl

/-- C6: `update_record` on an item whose identifier matches no stored row
(or is `NULL`) returns `false` and leaves the store — in particular the
item count — unchanged, raising no error. -/
theorem update_record_unknown_id_noop (db : DB) (m : Media)
    (h : ∀ r ∈ db.rows, some r.id ≠ m.id) :
    DatabaseModel.update_record db m = Except.ok (db, false) := by
  match hm : m.id with
  | none => simp [DatabaseModel.update_record, hm]
  | some i =>
    have hany : db.rows.any (fun r => r.id == i) = false := by
      rw [List.any_eq_false]
      intro r hr
      simpa using fun he => h r hr (by rw [hm, he])
    simp [DatabaseModel.update_record, hm, hany]

/-- C6 witness: updating id 7, absent from the two-row fixture store,
reports no effect and leaves the store intact. -/
theorem update_record_unknown_id_noop_witness :
    DatabaseModel.update_record exDB2 { exMedia with id := some 7 }
      = Except.ok (exDB2, false) :=
  update_record_unknown_id_noop exDB2 { exMedia with id := some 7 } (by decide)

/-- C7: `get_record` on an identifier matching no stored row returns
`none` (an explicit not-found result), raising no error. -/
theorem get_record_missing_returns_none (db : DB) (media_id : Nat)
    (h : ∀ r ∈ db.rows, r.id ≠ media_id) :
    DatabaseModel.get_record db media_id = none := by
  have hfind : db.rows.find? (fun r => r.id == media_id) = none := by
    rw [List.find?_eq_none]
    intro r hr
    simpa using h r hr
  simp [DatabaseModel.get_record, hfind]

/-- C7 witness: id 7 is absent from the two-row fixture store and
`get_record` returns `none` there. -/
theorem get_record_missing_returns_none_witness :
    DatabaseModel.get_record exDB2 7 = none :=
  get_record_missing_returns_none exDB2 7 (by decide)

theorem roundTo1_zero : roundTo1 0 = 0 := by
  have h : Rat.floor 0 = 0 := rfl
  norm_num [roundTo1, roundHalfEven, h]

/-- C3: in every store state, the `total_items` statistic equals the
length of the list returned by `get_all_records`, and the
`type_breakdown` counts sum to `total_items`. -/
theorem statistics_totals_consistent (db : DB) :
    (DatabaseModel.get_statistics db).total_items
        = (DatabaseModel.get_all_records db).length ∧
    ((DatabaseModel.get_statistics db).type_breakdown.map (fun p => p.2)).sum
        = (DatabaseModel.get_statistics db).total_items := by
  constructor
  · simp [DatabaseModel.get_statistics, DatabaseModel.get_all_records,
      length_insertionSort_eq]
  · have hcount : ∀ t : String,
        (db.rows.filter (fun r => r.media_type == t)).length
          = List.count t (db.rows.map (fun r => r.media_type)) := by
      intro t
      rw [List.count_eq_countP, List.countP_eq_length_filter,
        List.filter_map, List.length_map]
      rfl
    have hsum : ((db.rows.map (fun r => r.media_type)).dedup.map
        (fun t => (db.rows.filter (fun r => r.media_type == t)).length)).sum
        = db.rows.length := by
      rw [List.map_congr_left (fun a _ => hcount a),
        List.sum_map_count_dedup_eq_length, List.length_map]
    simpa [DatabaseModel.get_statistics, List.map_map, Function.comp] using hsum

/-- C4: in every store state, the `average_rating` statistic is 0 when no
stored item has a non-null rating and otherwise equals the arithmetic
mean of the non-null ratings rounded to one decimal place (ties to even,
as Python's `round`); the code's extra truthiness branch returning the
literal `0` when the average is exactly zero coincides with the rounded
mean there. -/
theorem average_rating_matches_spec (db : DB) :
    (DatabaseModel.get_statistics db).average_rating = spec_average_rating db := by
  simp only [DatabaseModel.get_statistics, spec_average_rating]
  by_cases h0 : (db.rows.filterMap (fun r => r.rating)).length = 0
  · simp [h0]
  · simp only [h0, if_false]
    by_cases hz : (db.rows.filterMap (fun r => r.rating)).sum
        / ((db.rows.filterMap (fun r => r.rating)).length : Rat) = 0
    · rw [if_pos hz, hz, roundTo1_zero]
    · rw [if_neg hz]

theorem setup_media_database_users (sys : Sys) (u : String) :
    (setup_media_database sys u).users = sys.users := by
  unfold setup_media_database
  split <;> rfl

theorem count_insertionSort_eq (r : String → String → Prop) [DecidableRel r]
    (l : List String) (a : String) :
    List.count a (List.insertionSort r l) = List.count a l :=
  (List.perm_insertionSort r l).count_eq a

theorem create_user_mem (sys : Sys) (u : String) (pOk : Bool)
    (h : u ∈ sys.users) :
    UserManager.create_user sys u pOk = (sys, Except.ok false) := by
  simp [UserManager.create_user, h]

/-- C8: after a successful `create_user u`, a second `create_user u`
returns the boolean failure `false` (no exception, whatever the
provisioning oracle says), and `get_all_users` contains `u` exactly
once. -/
theorem create_user_duplicate_fails (sys : Sys) (u : String) (pOk pOk2 : Bool)
    (h : (UserManager.create_user sys u pOk).2 = Except.ok true) :
    (UserManager.create_user (UserManager.create_user sys u pOk).1 u pOk2).2
        = Except.ok false ∧
    List.count u (UserManager.get_all_users (UserManager.create_user sys u pOk).1)
        = 1 := by
  by_cases hmem : u ∈ sys.users
  · rw [create_user_mem _ u pOk hmem] at h
    simp at h
  · by_cases hp : pOk = true
    · have husers : (UserManager.create_user sys u pOk).1.users
          = sys.users ++ [u] := by
        simp [UserManager.create_user, hmem, hp, setup_media_database_users]
      have hcm : u ∈ (UserManager.create_user sys u pOk).1.users := by
        rw [husers]; simp
      constructor
      · rw [create_user_mem _ u pOk2 hcm]
      · rw [UserManager.get_all_users, count_insertionSort_eq, husers,
          List.count_append, List.count_singleton]
        simp [List.count_eq_zero.mpr hmem]
    · simp [UserManager.create_user, hmem, hp] at h

/-- C8 witness: registering "a" twice from the empty registry. -/
theorem create_user_duplicate_fails_witness :
    (UserManager.create_user emptySys "a" true).2 = Except.ok true ∧
    (UserManager.create_user (UserManager.create_user emptySys "a" true).1 "a" true).2
        = Except.ok false ∧
    List.count "a"
        (UserManager.get_all_users (UserManager.create_user emptySys "a" true).1)
        = 1 := by
  refine ⟨rfl, create_user_duplicate_fails emptySys "a" true true rfl⟩

/-- C9: for a fresh username with no pre-existing store file,
`create_user` succeeds and provisions an empty, queryable media store
under the deterministic file name `"media_library_" ++ u ++ ".db"`;
`get_all_records` on the fresh store is the empty list, not an error. -/
theorem create_user_provisions_empty_store (sys : Sys) (u : String)
    (hu : u ∉ sys.users)
    (hs : findStore sys (dbFileName u) = none) :
    UserManager.create_user sys u true
        = ({ users := sys.users ++ [u]
           , stores := sys.stores ++ [(dbFileName u, emptyDB)] },
          Except.ok true) ∧
    findStore
        { users := sys.users ++ [u]
        , stores := sys.stores ++ [(dbFileName u, emptyDB)] }
        (dbFileName u) = some emptyDB ∧
    DatabaseModel.get_all_records emptyDB = ([] : List Media) ∧
    dbFileName u = "media_library_" ++ u ++ ".db" := by
  have hfind : sys.stores.find? (fun p => p.1 == dbFileName u) = none := by
    simpa [findStore] using hs
  have hany : sys.stores.any (fun p => p.1 == dbFileName u) = false := by
    rw [List.any_eq_false]
    exact fun p hp => by simpa using List.find?_eq_none.mp hfind p hp
  refine ⟨?_, ?_, rfl, rfl⟩
  · simp [UserManager.create_user, hu, setup_media_database, hany]
  · simp [findStore, List.find?_append, hfind]

/-- C9 witness: registering "a" in the empty system provisions the store
file "media_library_a.db" holding an empty queryable database. -/
theorem create_user_provisions_empty_store_witness :
    UserManager.create_user emptySys "a" true
        = ({ users := ["a"], stores := [(dbFileName "a", emptyDB)] },
          Except.ok true) ∧
    findStore { users := ["a"], stores := [(dbFileName "a", emptyDB)] }
        (dbFileName "a") = some emptyDB ∧
    DatabaseModel.get_all_records emptyDB = ([] : List Media) ∧
    dbFileName "a" = "media_library_" ++ "a" ++ ".db" := by
  have h := create_user_provisions_empty_store emptySys "a"
    (by simp [emptySys]) rfl
  simpa [emptySys] using h

/-- C10: `create_user` commits the registry insert before provisioning
the per-user store, so when provisioning fails with a storage error the
call raises yet the username stays registered: it is in the users table
and in `get_all_users`, and a retry returns the duplicate failure
`false`. `create_user` is not atomic on error. -/
theorem create_user_commits_before_provisioning (sys : Sys) (u : String)
    (pOk2 : Bool) (h : u ∉ sys.users) :
    (UserManager.create_user sys u false).2
        = Except.error "Error creating user: provisioning failed" ∧
    (UserManager.create_user sys u false).1.users = sys.users ++ [u] ∧
    u ∈ UserManager.get_all_users (UserManager.create_user sys u false).1 ∧
    (UserManager.create_user (UserManager.create_user sys u false).1 u pOk2).2
        = Except.ok false := by
  have hstate : UserManager.create_user sys u false
      = ({ sys with users := sys.users ++ [u] },
        Except.error "Error creating user: provisioning failed") := by
    simp [UserManager.create_user, h]
  have hmem : u ∈ (UserManager.create_user sys u false).1.users := by
    rw [hstate]; simp
  refine ⟨by rw [hstate], by rw [hstate], ?_, ?_⟩
  · rw [UserManager.get_all_users]
    exact (List.perm_insertionSort userAsc _).mem_iff.mpr hmem
  · rw [create_user_mem _ u pOk2 hmem]

/-- C10 witness: registering "a" with failing provisioning leaves "a"
registered, and the retry reports the duplicate. -/
theorem create_user_commits_before_provisioning_witness :
    (UserManager.create_user emptySys "a" false).2
        = Except.error "Error creating user: provisioning failed" ∧
    (UserManager.create_user emptySys "a" false).1.users = ["a"] ∧
    "a" ∈ UserManager.get_all_users (UserManager.create_user emptySys "a" false).1 ∧
    (UserManager.create_user (UserManager.create_user emptySys "a" false).1 "a" true).2
        = Except.ok false := by
  have h := create_user_commits_before_provisioning emptySys "a" true
    (by simp [emptySys])
  simpa [emptySys] using h

theorem likeMatch_percent (p : List Char) (s : List Char) :
    likeMatch ('%' :: p) s = (List.tails s).any (fun t => likeMatch p t) := by
  simp [likeMatch]

theorem likeMatch_append_percent (q : List Char)
    (hq : ∀ c ∈ q, c ≠ '%' ∧ c ≠ '_') :
    ∀ s, likeMatch (q ++ ['%']) s
      = strStartsWith (q.map Char.toLower) (s.map Char.toLower) := by
  induction q with
  | nil =>
    intro s
    simp only [List.nil_append, List.map_nil, strStartsWith]
    rw [likeMatch_percent]
    rw [List.any_eq_true]
    exact ⟨[], by simp [List.mem_tails], rfl⟩
  | cons c q ih =>
    intro s
    have hc := hq c (by simp)
    have hq' : ∀ d ∈ q, d ≠ '%' ∧ d ≠ '_' := fun d hd => hq d (by simp [hd])
    cases s with
    | nil =>
      simp [likeMatch, hc.1, hc.2, strStartsWith]
    | cons d s' =>
      simp [likeMatch, hc.1, hc.2, strStartsWith, likeCharEq, ih hq' s']

theorem likeMatch_eq_strContains (q : List Char)
    (hq : ∀ c ∈ q, c ≠ '%' ∧ c ≠ '_') :
    ∀ s, likeMatch ('%' :: (q ++ ['%'])) s
      = strContains (q.map Char.toLower) (s.map Char.toLower) := by
  intro s
  induction s with
  | nil =>
    rw [likeMatch_percent]
    simp [strContains, likeMatch_append_percent q hq []]
  | cons d s' ih =>
    have hsplit : likeMatch ('%' :: (q ++ ['%'])) (d :: s')
        = (likeMatch (q ++ ['%']) (d :: s')
            || likeMatch ('%' :: (q ++ ['%'])) s') := by
      rw [likeMatch_percent, likeMatch_percent]
      simp [List.any_cons]
    rw [hsplit, likeMatch_append_percent q hq (d :: s'), ih]
    simp [strContains]

/-- C2 counterexample: the query string "%" is passed unescaped into the
LIKE pattern, so on a store holding only the row titled "Alpha" the
search returns that row even though "Alpha" does not contain "%" as a
(case-insensitive) substring — the claim fails for query strings holding
LIKE wildcard characters. -/
theorem search_by_title_wildcard_counterexample :
    DatabaseModel.search_by_title exDB "%" = [DatabaseModel.row_to_media alphaRow] ∧
    containsCI "%" alphaRow.title = false := by
  constructor
  · decide
  · decide

/-- C2 amended: for every query string containing neither of the LIKE
wildcard characters `%` and `_`, `search_by_title` returns exactly the
stored items whose title contains the query as a case-insensitive
(ASCII) substring, ordered by title ascending; queries containing a
wildcard character are instead interpreted under LIKE semantics. -/
theorem search_by_title_matches_spec (db : DB) (q : String)
    (hq : ∀ c ∈ q.data, c ≠ '%' ∧ c ≠ '_') :
    DatabaseModel.search_by_title db q = search_by_title_spec db q := by
  unfold DatabaseModel.search_by_title search_by_title_spec
  congr 1
  congr 1
  apply List.filter_congr
  intro r _
  rw [likeMatch_eq_strContains q.data hq r.title.data]
  rfl

/-- C2 witness: with "Alpha" and "beta" stored, searching "ALP" agrees
with the case-insensitive-substring reading and returns exactly the
"Alpha" item. -/
theorem search_by_title_matches_spec_witness :
    DatabaseModel.search_by_title exDB2 "ALP" = search_by_title_spec exDB2 "ALP" ∧
    search_by_title_spec exDB2 "ALP" = [DatabaseModel.row_to_media alphaRow] :=
  ⟨search_by_title_matches_spec exDB2 "ALP" (by decide), by decide⟩
